import Mathlib

/-!
Shallow embedding of `test-oauth-server/oauth_server.py`, a dummy OAuth 2.0
authorization server built on Flask, together with theorems settling the
claims about its four endpoints (`/register`, `/.well-known/...`,
`/authorize`, `/token`) and the shared credential extractor.

Modelling conventions:
  * Python `str` is Lean `String`; `Optional[str]` is `Option String`.
  * Flask `MultiDict.get` returns the first value for a key, so query
    arguments, form fields and parsed JSON objects are association lists
    `List (String × String)` read with `List.lookup` (first match).
    JSON values that are not strings are outside the model.
  * A Python exception escaping an expression is `Except.error ()`; the
    exception's message text is not modelled (error descriptions built
    from `str(e)` are rendered as `none`).
  * Flask's `request.get_json()` raises on a malformed body when the
    declared mimetype is JSON and returns `None` for a JSON `null` body or
    (inside the extractor, which guards with `request.is_json`) for a
    non-JSON mimetype.  A successful parse may yield a JSON object (a
    dict) or any other JSON value (list, number, string, boolean), on
    which a later `.get(...)` raises `AttributeError`.  A request
    therefore carries the *outcome* of that call as a field
    `jsonOutcome : Except Unit JsonRead`: `.error ()` = the call raises,
    `.ok .null` = it returns `None`, `.ok (.obj d)` = it returns the
    object `d`, `.ok (.nonObj t)` = it returns a non-dict value of Python
    truthiness `t`.
  * `datetime.utcnow().timestamp()` is an input `now : Nat`.
-/

/-- `DUMMY_CLIENT_ID` constant from the source. -/
def DUMMY_CLIENT_ID : String := "dummy_client_12345"

/-- `DUMMY_CLIENT_SECRET` constant from the source. -/
def DUMMY_CLIENT_SECRET : String := "dummy_secret_abcdef123456"

/-- `hasInfix pat l` is true when `pat` occurs contiguously inside `l`. -/
def hasInfix (pat : List Char) : List Char → Bool
  | [] => pat.isEmpty
  | c :: rest => List.isPrefixOf pat (c :: rest) || hasInfix pat rest

/-- Python's `pat in s` substring test on strings. -/
def containsSubstr (pat s : String) : Bool :=
  hasInfix pat.data s.data

/-- `'application/x-www-form-urlencoded' in content_type`. -/
def formCT (contentType : String) : Bool :=
  containsSubstr "application/x-www-form-urlencoded" contentType

/-- `'application/json' in content_type`. -/
def jsonCT (contentType : String) : Bool :=
  containsSubstr "application/json" contentType

/-- Value of a character in the standard base64 alphabet, if any. -/
def b64Index (c : Char) : Option Nat :=
  if 65 ≤ c.toNat ∧ c.toNat ≤ 90 then some (c.toNat - 65)        -- A-Z
  else if 97 ≤ c.toNat ∧ c.toNat ≤ 122 then some (c.toNat - 71)  -- a-z
  else if 48 ≤ c.toNat ∧ c.toNat ≤ 57 then some (c.toNat + 4)    -- 0-9
  else if c = '+' then some 62
  else if c = '/' then some 63
  else none

/-- Decode a run of base64 data characters (padding already stripped) into
bytes: full groups of four 6-bit values give three bytes, a trailing pair
gives one byte and a trailing triple gives two, dropped bits ignored as in
CPython's non-strict `binascii.a2b_base64`.  A trailing single character is
an error. -/
def b64decodeData : List Char → Option (List Nat)
  | [] => some []
  | [a, b] => do
      let x ← b64Index a
      let y ← b64Index b
      pure [(x * 64 + y) / 16]
  | [a, b, c] => do
      let x ← b64Index a
      let y ← b64Index b
      let z ← b64Index c
      let v := (x * 4096 + y * 64 + z) / 4
      pure [v / 256, v % 256]
  | a :: b :: c :: d :: rest => do
      let x ← b64Index a
      let y ← b64Index b
      let z ← b64Index c
      let w ← b64Index d
      let n := x * 262144 + y * 4096 + z * 64 + w
      let bytes ← b64decodeData rest
      pure (n / 65536 :: n / 256 % 256 :: n % 256 :: bytes)
  | _ => none

/-- Model of Python `base64.b64decode(s)` (non-strict): the string must be
ASCII (`s.encode('ascii')` raises otherwise), characters outside the
alphabet and `'='` are discarded, data runs up to the first `'='`, and the
total of data and padding characters must fill four-character groups. -/
def b64decodeBytes (s : String) : Option (List Nat) :=
  if s.data.any (fun c => 128 ≤ c.toNat) then none
  else
    let cs := s.data.filter (fun c => (b64Index c).isSome || c == '=')
    let data := cs.takeWhile (fun c => c ≠ '=')
    if cs.length % 4 == 0 then b64decodeData data else none

/-- One step per decoded character; `fuel` bounds the recursion (each step
consumes at least one byte, so `fuel = length` suffices). -/
def utf8DecodeAux : Nat → List Nat → Option (List Char)
  | _, [] => some []
  | 0, _ :: _ => none
  | fuel + 1, b :: rest =>
    if b < 128 then
      (utf8DecodeAux fuel rest).map (fun cs => Char.ofNat b :: cs)
    else if b < 194 then none
    else if b < 224 then
      match rest with
      | c1 :: rest1 =>
        if 128 ≤ c1 ∧ c1 < 192 then
          (utf8DecodeAux fuel rest1).map
            (fun cs => Char.ofNat ((b - 192) * 64 + (c1 - 128)) :: cs)
        else none
      | [] => none
    else if b < 240 then
      match rest with
      | c1 :: c2 :: rest2 =>
        if (128 ≤ c1 ∧ c1 < 192) ∧ (128 ≤ c2 ∧ c2 < 192) then
          let cp := (b - 224) * 4096 + (c1 - 128) * 64 + (c2 - 128)
          if 2048 ≤ cp ∧ ¬(55296 ≤ cp ∧ cp < 57344) then
            (utf8DecodeAux fuel rest2).map (fun cs => Char.ofNat cp :: cs)
          else none
        else none
      | _ => none
    else if b < 245 then
      match rest with
      | c1 :: c2 :: c3 :: rest3 =>
        if (128 ≤ c1 ∧ c1 < 192) ∧ (128 ≤ c2 ∧ c2 < 192) ∧ (128 ≤ c3 ∧ c3 < 192) then
          let cp := (b - 240) * 262144 + (c1 - 128) * 4096 + (c2 - 128) * 64 + (c3 - 128)
          if 65536 ≤ cp ∧ cp ≤ 1114111 then
            (utf8DecodeAux fuel rest3).map (fun cs => Char.ofNat cp :: cs)
          else none
        else none
      | _ => none
    else none

/-- Model of `bytes.decode('utf-8')`: strict UTF-8 decoding, rejecting bad
lead or continuation bytes, overlong forms and surrogates. -/
def utf8Decode (bs : List Nat) : Option (List Char) :=
  utf8DecodeAux bs.length bs

/-- `base64.b64decode(s).decode('utf-8')` as one fallible step. -/
def b64decodeUtf8 (s : String) : Option (List Char) :=
  (b64decodeBytes s).bind utf8Decode

/-- Lines 41-47 of the source: the Basic-auth branch of
`parse_client_credentials`.  `None` covers every swallowed failure: header
absent, wrong scheme, base64 or UTF-8 decode error, or no colon to split on
(`split(':', 1)` then yields one element and tuple unpacking raises). -/
def headerCreds (authHeader : Option String) : Option (String × String) :=
  match authHeader with
  | none => none
  | some h =>
    -- `auth_header.startswith('Basic ')`, then `auth_header[6:]`: Python
    -- indexes by code point, so both run on the character list.
    if List.isPrefixOf "Basic ".data h.data then
      match b64decodeUtf8 (String.mk (h.data.drop 6)) with
      | none => none
      | some cs =>
        if cs.contains ':' then
          some (String.mk (cs.takeWhile (fun c => c ≠ ':')),
                String.mk ((cs.dropWhile (fun c => c ≠ ':')).drop 1))
        else none
    else none

/-- Python truthiness of an optional string: `None` and `''` are falsy. -/
def truthy : Option String → Bool
  | none => false
  | some s => s ≠ ""

/-- A value returned (without raising) by `request.get_json()`: `None`, a
JSON object modelled as an association list, or any non-dict JSON value
(list, number, string, boolean), of which only its Python truthiness is
observable to this program — reading `.get(...)` off it raises
`AttributeError`. -/
inductive JsonRead where
  | null
  | obj (d : List (String × String))
  | nonObj (pyTruthy : Bool)
deriving DecidableEq, Repr

/-- Python truthiness of a `get_json` result: `None` is falsy, a dict is
truthy when non-empty, other values carry their own truthiness. -/
def jsonTruthy : JsonRead → Bool
  | .null => false
  | .obj d => d ≠ []
  | .nonObj t => t

/-- `x.get(k)` on a `get_json` result: succeeds on a dict, raises
`AttributeError` on every other value (`None` included). -/
def dictGet : JsonRead → String → Except Unit (Option String)
  | .obj d, k => .ok (d.lookup k)
  | _, _ => .error ()

/-- The parts of a `/token` request that the source reads. -/
structure TokenReq where
  authHeader : Option String
  /-- `request.headers.get('Content-Type', '')`. -/
  contentType : String
  /-- `request.form` (empty unless Flask parsed a form body). -/
  form : List (String × String)
  /-- Outcome of `request.get_json()` guarded by `request.is_json`
  (see the module docstring). -/
  jsonOutcome : Except Unit JsonRead

/-- Lines 50-59 of the source: the body fallback of
`parse_client_credentials`, run when the header produced no usable id.
`cur` is the `(client_id, client_secret)` pair already in the local
variables (possibly a secret left over from a header whose id was empty);
branches that do not assign leave it untouched.  The JSON branch evaluates
`request.get_json() if request.is_json else None` and then
`json_data.get(...)` with no surrounding `try`, so both a raising parse
and the `AttributeError` from `.get` on a truthy non-dict value
propagate. -/
def bodyCredentials (r : TokenReq) (cur : Option String × Option String) :
    Except Unit (Option String × Option String) :=
  if formCT r.contentType then
    .ok (r.form.lookup "client_id", r.form.lookup "client_secret")
  else if jsonCT r.contentType then
    match r.jsonOutcome with
    | .error e => .error e
    | .ok json_data =>
      -- `if json_data:` — `None`, an empty dict and falsy non-dict values
      -- leave `cur` untouched
      if jsonTruthy json_data then
        match json_data with
        | .obj d => .ok (d.lookup "client_id", d.lookup "client_secret")
        | _ => .error ()
      else .ok cur
  else .ok cur

/-- `parse_client_credentials` (source lines 32-61): header first, body
fallback when the header id is `None` or empty. -/
def parse_client_credentials (r : TokenReq) :
    Except Unit (Option String × Option String) :=
  let cur : Option String × Option String :=
    match headerCreds r.authHeader with
    | some (i, s) => (some i, some s)
    | none => (none, none)
  if truthy cur.1 then .ok cur else bodyCredentials r cur

/-- The fixed token bundle issued on success (source lines 233-243). -/
structure TokenResponse where
  access_token : String
  token_type : String
  expires_in : Nat
  refresh_token : String
  scope : String
deriving DecidableEq, Repr

/-- The fixed registration record (source lines 74-86);
`client_id_issued_at` is the only non-constant field. -/
structure ClientConfig where
  client_id : String
  client_secret : String
  client_id_issued_at : Nat
  client_secret_expires_at : Nat
  redirect_uris : List String
  token_endpoint_auth_method : String
  grant_types : List String
  response_types : List String
  client_name : String
  client_uri : String
  scope : String
deriving DecidableEq, Repr

/-- The JSON (or redirect) payload of a response.  Error descriptions the
source builds from `str(e)` of a caught exception are rendered `none`. -/
inductive Body where
  | error (code : String) (desc : Option String)
  | token (t : TokenResponse)
  | client (c : ClientConfig)
  | redirectTo (location : String)
deriving DecidableEq, Repr

/-- An HTTP response: status code plus payload.  `jsonify(d)` is status
200, `jsonify(d), 400` is status 400, Flask `redirect(url)` is status 302
with the `Location` URL. -/
structure Response where
  status : Nat
  body : Body
deriving DecidableEq, Repr

/-- `request.get_json() or ...` wrapped in `try/except` (source lines
196-201): a raising parse is caught and, like every falsy result (`None`,
an empty dict, a falsy non-dict value), replaced by the empty dict; a
truthy result — a non-empty dict or a truthy non-dict value — is kept
as is. -/
def tokenJsonData : Except Unit JsonRead → JsonRead
  | .error _ => .obj []
  | .ok jd => if jsonTruthy jd then jd else .obj []

/-- The `request_data` value the token endpoint reads `grant_type` from:
`dict(request.form)` for a form content type, else the JSON body (only
meaningful when one of the two content-type branches is taken). -/
def request_data (r : TokenReq) : JsonRead :=
  if formCT r.contentType then .obj r.form else tokenJsonData r.jsonOutcome

/-- Source lines 215-248: the tail of the token endpoint after the content
type was accepted — `request_data.get('grant_type')` (whose
`AttributeError` on a truthy non-dict JSON body propagates to the outer
`except`, giving 500 `server_error`), the grant-type gate, then the fixed
`TokenResponse`. -/
def tokenGrant (data : JsonRead) : Response :=
  match dictGet data "grant_type" with
  | .error _ => ⟨500, .error "server_error" none⟩
  | .ok grant_type =>
    if grant_type ≠ some "authorization_code" then
      ⟨400, .error "unsupported_grant_type" none⟩
    else
      ⟨200, .token ⟨"dummy_access_token_12345", "Bearer", 3600,
                    "dummy_refresh_token_12345", "read write"⟩⟩

/-- The `/token` endpoint (source lines 172-253): extract credentials
(raising propagates to the outer `except`, giving 500 `server_error`),
compare against the fixed identity, dispatch on content type, then
validate the grant type; `code`, `redirect_uri` and `code_verifier` are
only printed. -/
def token (r : TokenReq) : Response :=
  match parse_client_credentials r with
  | .error _ => ⟨500, .error "server_error" none⟩
  | .ok (client_id, client_secret) =>
    if client_id ≠ some DUMMY_CLIENT_ID ∨ client_secret ≠ some DUMMY_CLIENT_SECRET then
      ⟨401, .error "invalid client credentials" none⟩
    else if formCT r.contentType then
      tokenGrant (.obj r.form)
    else if jsonCT r.contentType then
      tokenGrant (tokenJsonData r.jsonOutcome)
    else
      ⟨400, .error "invalid_request" (some "Unsupported content type")⟩

/-- `request.args.get(k) or request.form.get(k)`: query first, an absent
or empty query value falls through to the form (which may itself be absent
or empty). -/
def orFalsy (a b : Option String) : Option String :=
  match a with
  | some v => if v = "" then b else some v
  | none => b

/-- The parts of an `/authorize` request the source reads. -/
structure AuthRequest where
  args : List (String × String)
  form : List (String × String)

/-- Resolution of one `/authorize` parameter, query first then form. -/
def getParam (r : AuthRequest) (k : String) : Option String :=
  orFalsy (r.args.lookup k) (r.form.lookup k)

/-- `request.args.get(k) or request.form.get(k, d)`: like `getParam` but
the form lookup carries a default, so the result is always a string
(still possibly `""` when the form holds an empty value). -/
def getParamD (r : AuthRequest) (k d : String) : String :=
  match r.args.lookup k with
  | some v => if v = "" then (r.form.lookup k).getD d else v
  | none => (r.form.lookup k).getD d

/-- `AUTH_CODE`: the fixed authorization code (source line 155). -/
def AUTH_CODE : String := "dummy_auth_code_12345"

/-- UTF-8 encoding of one character, for percent-encoding. -/
def utf8EncodeChar (c : Char) : List Nat :=
  let n := c.toNat
  if n < 128 then [n]
  else if n < 2048 then [192 + n / 64, 128 + n % 64]
  else if n < 65536 then [224 + n / 4096, 128 + n / 64 % 64, 128 + n % 64]
  else [240 + n / 262144, 128 + n / 4096 % 64, 128 + n / 64 % 64, 128 + n % 64]

/-- Uppercase hex digit of `n < 16`. -/
def hexDigit (n : Nat) : Char :=
  if n < 10 then Char.ofNat (48 + n) else Char.ofNat (55 + n)

/-- `%XX` escape of one byte. -/
def percentByte (b : Nat) : List Char :=
  ['%', hexDigit (b / 16), hexDigit (b % 16)]

/-- One character under Python `urllib.parse.quote_plus` with `safe=''`:
ASCII letters, digits and `_.-~` stand for themselves, space becomes `+`,
everything else is percent-encoded per UTF-8 byte. -/
def quotePlusChar (c : Char) : List Char :=
  if c.isAlphanum ∨ c = '_' ∨ c = '.' ∨ c = '-' ∨ c = '~' then [c]
  else if c = ' ' then ['+']
  else (utf8EncodeChar c).flatMap percentByte

/-- Python `urllib.parse.quote_plus` with `safe=''`. -/
def quote_plus (s : String) : String :=
  String.mk (s.data.flatMap quotePlusChar)

/-- Python `urllib.parse.urlencode`: `&`-joined `quote_plus(k)=quote_plus(v)`
pairs in order. -/
def urlencode : List (String × String) → String
  | [] => ""
  | [p] => quote_plus p.1 ++ "=" ++ quote_plus p.2
  | p :: q :: rest => quote_plus p.1 ++ "=" ++ quote_plus p.2 ++ "&" ++ urlencode (q :: rest)

/-- The `/authorize` endpoint (source lines 122-169).  `scope`,
`code_challenge` and `code_challenge_method` are resolved only to be
printed, so they are not modelled; nothing in the body can raise, so the
500 handler is unreachable and omitted.  When the success branch runs,
`redirect_uri` is truthy, so reading it with default `""` is exact. -/
def authorize (r : AuthRequest) : Response :=
  let client_id := getParam r "client_id"
  let redirect_uri := getParam r "redirect_uri"
  let response_type := getParamD r "response_type" "code"
  let state := getParam r "state"
  if ¬ truthy client_id ∨ ¬ truthy redirect_uri then
    ⟨400, .error "invalid_request" (some "Missing required parameters")⟩
  else if response_type ≠ "code" then
    ⟨400, .error "unsupported_response_type" none⟩
  else
    let params := ("code", AUTH_CODE) ::
      (if truthy state then [("state", state.getD "")] else [])
    ⟨302, .redirectTo (redirect_uri.getD "" ++ "?" ++ urlencode params)⟩

/-- The fixed registration record as a function of the issuance instant
(source lines 74-86). -/
def dummyConfig (now : Nat) : ClientConfig :=
  { client_id := DUMMY_CLIENT_ID
    client_secret := DUMMY_CLIENT_SECRET
    client_id_issued_at := now
    client_secret_expires_at := 0
    redirect_uris := ["http://localhost:3000/callback", "http://localhost:8080/callback"]
    token_endpoint_auth_method := "client_secret_basic"
    grant_types := ["authorization_code"]
    response_types := ["code"]
    client_name := "Dummy OAuth Client"
    client_uri := "http://localhost:3000"
    scope := "read write admin" }

/-- The `/register` endpoint (source lines 64-95): `request.get_json() or {}`
inside `try/except`.  A raising parse (malformed body with a JSON mimetype
in every Flask version; any non-JSON mimetype in Flask ≥ 2.1) is caught
and answered with 400 `invalid_request`; any returned value — the parsed
object or `None` — is discarded and the fixed record is served. -/
def register (now : Nat)
    (jsonOutcome : Except Unit JsonRead) : Response :=
  match jsonOutcome with
  | .error _ => ⟨400, .error "invalid_request" none⟩
  | .ok _ => ⟨200, .client (dummyConfig now)⟩

deriving instance DecidableEq for Except

/-- C1: a `/token` request whose extracted credentials are the fixed dummy
identity, whose content type indicates form or JSON encoding, and whose
body yields `grant_type = "authorization_code"` is answered 200 with
exactly the fixed `TokenResponse`, for every value or absence of `code`,
`redirect_uri` and `code_verifier` (the body is otherwise arbitrary). -/
theorem token_fixed_success (r : TokenReq)
    (hc : parse_client_credentials r =
      .ok (some DUMMY_CLIENT_ID, some DUMMY_CLIENT_SECRET))
    (hct : formCT r.contentType = true ∨ jsonCT r.contentType = true)
    (hg : dictGet (request_data r) "grant_type" = .ok (some "authorization_code")) :
    token r = ⟨200, .token ⟨"dummy_access_token_12345", "Bearer", 3600,
                            "dummy_refresh_token_12345", "read write"⟩⟩ := by
  unfold token
  rw [hc]
  by_cases hf : formCT r.contentType
  · unfold request_data at hg
    rw [if_pos hf] at hg
    simp [hf, tokenGrant, hg]
  · have hj : jsonCT r.contentType = true := by
      rcases hct with h | h
      · exact absurd h hf
      · exact h
    unfold request_data at hg
    rw [if_neg hf] at hg
    simp [hf, hj, tokenGrant, hg]

/-- C1 witness: the spec's own example — Basic auth encoding the dummy
identity, form body `grant_type=authorization_code&code=anything&...`. -/
theorem token_fixed_success_witness :
    token ⟨some "Basic ZHVtbXlfY2xpZW50XzEyMzQ1OmR1bW15X3NlY3JldF9hYmNkZWYxMjM0NTY=",
           "application/x-www-form-urlencoded",
           [("grant_type", "authorization_code"), ("code", "anything"),
            ("redirect_uri", "http://x")], .ok .null⟩ =
      ⟨200, .token ⟨"dummy_access_token_12345", "Bearer", 3600,
                    "dummy_refresh_token_12345", "read write"⟩⟩ :=
  token_fixed_success _ (by decide) (Or.inl (by decide)) (by decide)

/-- C3: a `/token` request whose extracted pair differs from the fixed
identity in either component (absence included) is answered 401 with the
one generic invalid-credentials body, the same for every kind of
mismatch. -/
theorem token_rejects_bad_credentials (r : TokenReq)
    (cid csec : Option String)
    (hp : parse_client_credentials r = .ok (cid, csec))
    (hm : cid ≠ some DUMMY_CLIENT_ID ∨ csec ≠ some DUMMY_CLIENT_SECRET) :
    token r = ⟨401, .error "invalid client credentials" none⟩ := by
  unfold token
  rw [hp]
  simp only []
  rw [if_pos hm]

/-- C3 witness: matching client id but a wrong secret, via Basic auth. -/
theorem token_rejects_bad_credentials_witness :
    token ⟨some "Basic ZHVtbXlfY2xpZW50XzEyMzQ1Ondyb25nc2VjcmV0",
           "application/x-www-form-urlencoded",
           [("grant_type", "authorization_code")], .ok .null⟩ =
      ⟨401, .error "invalid client credentials" none⟩ :=
  token_rejects_bad_credentials _ (some "dummy_client_12345") (some "wrongsecret")
    (by decide) (Or.inr (by decide))

/-- C4 counterexample: the claim quantifies over every `/token` request
with an unsupported content type, but the credential gate runs first — a
plain-text request with no credentials is answered 401, not 400
`invalid_request`. -/
theorem token_contenttype_after_credentials_cex :
    token ⟨none, "text/plain", [], .ok .null⟩ =
      ⟨401, Body.error "invalid client credentials" none⟩ ∧
    (token ⟨none, "text/plain", [], .ok .null⟩).status ≠ 400 := by
  decide

/-- C4 amended: a `/token` request that passes the credential gate and
whose content type indicates neither form nor JSON encoding is answered
400 `invalid_request`; the grant-type check is never reached (the response
is the same for every body, `grant_type` included). -/
theorem token_unsupported_content_type (r : TokenReq)
    (hc : parse_client_credentials r =
      .ok (some DUMMY_CLIENT_ID, some DUMMY_CLIENT_SECRET))
    (hf : formCT r.contentType = false)
    (hj : jsonCT r.contentType = false) :
    token r = ⟨400, .error "invalid_request" (some "Unsupported content type")⟩ := by
  unfold token
  rw [hc]
  simp [hf, hj]

/-- C4 amended witness: valid Basic-auth credentials with a plain-text
body, `grant_type` present and valid in the (ignored) form field. -/
theorem token_unsupported_content_type_witness :
    token ⟨some "Basic ZHVtbXlfY2xpZW50XzEyMzQ1OmR1bW15X3NlY3JldF9hYmNkZWYxMjM0NTY=",
           "text/plain", [("grant_type", "authorization_code")], .ok .null⟩ =
      ⟨400, .error "invalid_request" (some "Unsupported content type")⟩ :=
  token_unsupported_content_type _ (by decide) (by decide) (by decide)

/-- C6: a `/token` request that passes the credential and content-type
gates and whose body read yields any `grant_type` other than the literal
`authorization_code` — absence included — is answered 400
`unsupported_grant_type`.  (The body here is a parameter map: form fields,
or a JSON object after the `or`-with-empty-dict defaulting; a truthy
non-dict JSON body instead raises at the `grant_type` read and is outside
the `dictGet … = .ok g` hypothesis.) -/
theorem token_unsupported_grant_type (r : TokenReq)
    (hc : parse_client_credentials r =
      .ok (some DUMMY_CLIENT_ID, some DUMMY_CLIENT_SECRET))
    (hct : formCT r.contentType = true ∨ jsonCT r.contentType = true)
    (g : Option String)
    (hg1 : dictGet (request_data r) "grant_type" = .ok g)
    (hg2 : g ≠ some "authorization_code") :
    token r = ⟨400, .error "unsupported_grant_type" none⟩ := by
  unfold token
  rw [hc]
  by_cases hf : formCT r.contentType
  · unfold request_data at hg1
    rw [if_pos hf] at hg1
    simp [hf, tokenGrant, hg1, hg2]
  · have hj : jsonCT r.contentType = true := by
      rcases hct with h | h
      · exact absurd h hf
      · exact h
    unfold request_data at hg1
    rw [if_neg hf] at hg1
    simp [hf, hj, tokenGrant, hg1, hg2]

/-- C6 witness: the spec's example `grant_type=refresh_token`. -/
theorem token_unsupported_grant_type_witness :
    token ⟨some "Basic ZHVtbXlfY2xpZW50XzEyMzQ1OmR1bW15X3NlY3JldF9hYmNkZWYxMjM0NTY=",
           "application/x-www-form-urlencoded",
           [("grant_type", "refresh_token")], .ok .null⟩ =
      ⟨400, .error "unsupported_grant_type" none⟩ :=
  token_unsupported_grant_type _ (by decide) (Or.inl (by decide))
    (some "refresh_token") (by decide) (by decide)

/-- String concatenation is associative (componentwise on the character
lists). -/
theorem strAppendAssoc : ∀ (a b c : String), a ++ b ++ c = a ++ (b ++ c)
  | ⟨a⟩, ⟨b⟩, ⟨c⟩ => congrArg String.mk (List.append_assoc a b c)

/-- `urlencode` of the code/state pair list: the fixed code survives
percent-encoding unchanged, the state value is `quote_plus`-encoded. -/
theorem urlencode_code_state (S : String) :
    urlencode [("code", AUTH_CODE), ("state", S)] =
      "code=dummy_auth_code_12345&state=" ++ quote_plus S := by
  show quote_plus "code" ++ "=" ++ quote_plus AUTH_CODE ++ "&" ++
      (quote_plus "state" ++ "=" ++ quote_plus S) =
    "code=dummy_auth_code_12345&state=" ++ quote_plus S
  have e1 : quote_plus "code" ++ "=" ++ quote_plus AUTH_CODE ++ "&" =
      "code=dummy_auth_code_12345&" := rfl
  have e2 : quote_plus "state" ++ "=" = "state=" := rfl
  rw [e1, e2, ← strAppendAssoc]
  rfl

/-- C2 counterexample: a supplied `state` is not echoed verbatim — the
handler passes it through `urlencode`, so `state=a b` yields redirect
parameter `state=a+b`, not `state=a b` as the claim requires. -/
theorem authorize_state_urlencoded_cex :
    authorize ⟨[("client_id", "x"), ("redirect_uri", "http://localhost:3000/callback"),
                ("state", "a b")], []⟩ =
      ⟨302, .redirectTo
        "http://localhost:3000/callback?code=dummy_auth_code_12345&state=a+b"⟩
    ∧ "http://localhost:3000/callback?code=dummy_auth_code_12345&state=a+b" ≠
      "http://localhost:3000/callback?code=dummy_auth_code_12345&state=a b" := by
  decide

/-- C2 amended: an `/authorize` request with truthy `client_id` and
`redirect_uri` and response type resolving to `code` is answered with a
302 redirect to `redirect_uri?code=dummy_auth_code_12345`, followed by
`&state=` and the `quote_plus`-encoding of the state when a non-empty
state was supplied (so the state appears verbatim exactly when all its
characters are URL-safe); the parameter is omitted when the state is
absent or empty. -/
theorem authorize_redirect_encodes_state (r : AuthRequest) (uri S : String)
    (hc : truthy (getParam r "client_id") = true)
    (hu : getParam r "redirect_uri" = some uri)
    (hune : uri ≠ "")
    (hrt : getParamD r "response_type" "code" = "code") :
    (getParam r "state" = some S → S ≠ "" →
      authorize r = ⟨302, .redirectTo
        (uri ++ "?code=dummy_auth_code_12345&state=" ++ quote_plus S)⟩)
    ∧ (getParam r "state" = none ∨ getParam r "state" = some "" →
      authorize r = ⟨302, .redirectTo (uri ++ "?code=dummy_auth_code_12345")⟩) := by
  have htu : truthy (some uri) = true := by simp [truthy, hune]
  constructor
  · intro hs hsne
    simp only [authorize, hu, hs, hrt]
    rw [if_neg (by simp [hc, htu]), if_neg (by simp)]
    rw [show truthy (some S) = true by simp [truthy, hsne]]
    simp only [Option.getD_some, if_true]
    rw [urlencode_code_state, ← strAppendAssoc, strAppendAssoc uri]
    rfl
  · intro hs
    simp only [authorize, hu, hrt]
    rw [if_neg (by simp [hc, htu]), if_neg (by simp)]
    rw [show truthy (getParam r "state") = false by
      rcases hs with h | h <;> rw [h] <;> simp [truthy]]
    simp only [Bool.false_eq_true, if_false, Option.getD_some]
    rw [show urlencode [("code", AUTH_CODE)] = "code=dummy_auth_code_12345" from rfl,
        strAppendAssoc]
    rfl

/-- C2 amended witness: a safe state `xyz` is carried (and survives
encoding unchanged), an absent state is omitted. -/
theorem authorize_redirect_encodes_state_witness :
    authorize ⟨[("client_id", "x"), ("redirect_uri", "http://localhost:3000/callback"),
                ("state", "xyz")], []⟩ =
      ⟨302, .redirectTo ("http://localhost:3000/callback" ++
        "?code=dummy_auth_code_12345&state=" ++ quote_plus "xyz")⟩
    ∧ authorize ⟨[("client_id", "x"),
                  ("redirect_uri", "http://localhost:3000/callback")], []⟩ =
      ⟨302, .redirectTo ("http://localhost:3000/callback" ++
        "?code=dummy_auth_code_12345")⟩ :=
  ⟨(authorize_redirect_encodes_state _ _ "xyz" (by decide) (by decide) (by decide)
      (by decide)).1 (by decide) (by decide),
   (authorize_redirect_encodes_state _ _ "" (by decide) (by decide) (by decide)
      (by decide)).2 (Or.inl (by decide))⟩

/-- C5: `/authorize` validation order — a missing (or empty, hence falsy)
`client_id` or `redirect_uri`, each resolved query-first then form, yields
400 `invalid_request`; with both present, a response type other than
`code` (the default) yields 400 `unsupported_response_type`; with both
present and response type `code`, the request is answered with a redirect
for every value of the two fields — no comparison against registered
values is performed. -/
theorem authorize_validation_order (r : AuthRequest) :
    (¬(truthy (getParam r "client_id") = true ∧
       truthy (getParam r "redirect_uri") = true) →
      authorize r = ⟨400, .error "invalid_request" (some "Missing required parameters")⟩)
    ∧ (truthy (getParam r "client_id") = true →
       truthy (getParam r "redirect_uri") = true →
       getParamD r "response_type" "code" ≠ "code" →
       authorize r = ⟨400, .error "unsupported_response_type" none⟩)
    ∧ (truthy (getParam r "client_id") = true →
       truthy (getParam r "redirect_uri") = true →
       getParamD r "response_type" "code" = "code" →
       ∃ loc, authorize r = ⟨302, .redirectTo loc⟩) := by
  refine ⟨fun h => ?_, fun h1 h2 h3 => ?_, fun h1 h2 h3 => ?_⟩
  · simp only [authorize]
    rw [if_pos (not_and_or.mp h)]
  · simp only [authorize]
    rw [if_neg (by simp [h1, h2]), if_pos h3]
  · simp only [authorize]
    rw [if_neg (by simp [h1, h2]), if_neg (by simp [h3])]
    exact ⟨_, rfl⟩

/-- C5 witness: the three branches at concrete requests — no parameters;
`response_type=token`; an unregistered `client_id`/`redirect_uri` pair
that is still authorized. -/
theorem authorize_validation_order_witness :
    authorize ⟨[], []⟩ =
      ⟨400, .error "invalid_request" (some "Missing required parameters")⟩
    ∧ authorize ⟨[("client_id", "x"), ("redirect_uri", "u"),
                  ("response_type", "token")], []⟩ =
      ⟨400, .error "unsupported_response_type" none⟩
    ∧ ∃ loc, authorize ⟨[("client_id", "not-registered"),
                         ("redirect_uri", "http://evil.example/cb")], []⟩ =
      ⟨302, .redirectTo loc⟩ :=
  ⟨(authorize_validation_order ⟨[], []⟩).1 (by decide),
   (authorize_validation_order _).2.1 (by decide) (by decide) (by decide),
   (authorize_validation_order _).2.2 (by decide) (by decide) (by decide)⟩

/-- C7 counterexample: an exception does escape the credential extractor —
with no Authorization header, content type `application/json` and a body
whose JSON parse raises, the raise propagates out of the routine (the
body-reading branch has no `try` around `request.get_json()`), instead of
degrading to absent credentials. -/
theorem parse_json_exception_escapes_cex :
    parse_client_credentials ⟨none, "application/json", [], .error ()⟩ = .error ()
    ∧ (Except.error () : Except Unit (Option String × Option String)) ≠
      .ok (none, none) := by
  decide

/-- C7 amended: every Basic-auth failure (absent header, wrong scheme, bad
base64, undecodable bytes, no colon) is swallowed and extraction falls
through to the body fallback with both locals still `None`; the body
fallback itself can raise, and only under a JSON content type (with no
form content type taking precedence), in exactly two ways: the JSON parse
raises, or the parse returns a truthy non-dict value and
`json_data.get('client_id')` raises `AttributeError`.  Both escape the
routine. -/
theorem parse_header_failure_falls_through (r : TokenReq)
    (h : headerCreds r.authHeader = none) :
    parse_client_credentials r = bodyCredentials r (none, none)
    ∧ ∀ e, parse_client_credentials r = .error e →
        formCT r.contentType = false ∧ jsonCT r.contentType = true
        ∧ (r.jsonOutcome = .error e ∨ r.jsonOutcome = .ok (.nonObj true)) := by
  have h1 : parse_client_credentials r = bodyCredentials r (none, none) := by
    unfold parse_client_credentials
    rw [h]
    simp [truthy]
  refine ⟨h1, fun e he => ?_⟩
  rw [h1] at he
  unfold bodyCredentials at he
  by_cases hf : formCT r.contentType
  · rw [if_pos hf] at he
    exact absurd he (by simp)
  · rw [if_neg hf] at he
    by_cases hj : jsonCT r.contentType
    · rw [if_pos hj] at he
      refine ⟨by simpa using hf, hj, ?_⟩
      cases hjo : r.jsonOutcome with
      | error e2 =>
        rw [hjo] at he
        exact Or.inl (congrArg Except.error (Except.error.inj he))
      | ok jd =>
        rw [hjo] at he
        cases jd with
        | null => simp [jsonTruthy] at he
        | obj d =>
          cases d with
          | nil => simp [jsonTruthy] at he
          | cons a t => simp [jsonTruthy] at he
        | nonObj t =>
          cases t with
          | false => simp [jsonTruthy] at he
          | true => exact Or.inr rfl
    · rw [if_neg hj] at he
      exact absurd he (by simp)

/-- C7 amended witness: a malformed base64 payload (`Basic YQ`, incorrect
padding) is swallowed and the form body supplies the credentials; the two
raising cases are exhibited concretely — a raising JSON parse and a truthy
non-dict JSON body (e.g. `[1]`) both escape. -/
theorem parse_header_failure_falls_through_witness :
    parse_client_credentials ⟨some "Basic YQ", "application/x-www-form-urlencoded",
      [("client_id", "bodyid"), ("client_secret", "bodysec")], .ok .null⟩ =
      bodyCredentials ⟨some "Basic YQ", "application/x-www-form-urlencoded",
        [("client_id", "bodyid"), ("client_secret", "bodysec")], .ok .null⟩ (none, none)
    ∧ bodyCredentials ⟨some "Basic YQ", "application/x-www-form-urlencoded",
        [("client_id", "bodyid"), ("client_secret", "bodysec")], .ok .null⟩ (none, none) =
      .ok (some "bodyid", some "bodysec")
    ∧ parse_client_credentials ⟨none, "application/json", [], .error ()⟩ = .error ()
    ∧ parse_client_credentials ⟨none, "application/json", [], .ok (.nonObj true)⟩ =
      .error () :=
  ⟨(parse_header_failure_falls_through _ (by decide)).1, by decide, by decide, by decide⟩

/-- C9: when the Basic-auth header yields a usable (non-empty) client id,
the extractor returns exactly the header pair — the body fields are never
consulted, whatever the content type, form or JSON body hold. -/
theorem parse_header_priority (r : TokenReq) (i s : String)
    (h : headerCreds r.authHeader = some (i, s)) (hi : i ≠ "") :
    parse_client_credentials r = .ok (some i, some s) := by
  unfold parse_client_credentials
  rw [h]
  simp [truthy, hi]

/-- C9 witness: dummy credentials in the header win over different
credentials sitting in the form body. -/
theorem parse_header_priority_witness :
    parse_client_credentials
      ⟨some "Basic ZHVtbXlfY2xpZW50XzEyMzQ1OmR1bW15X3NlY3JldF9hYmNkZWYxMjM0NTY=",
       "application/x-www-form-urlencoded",
       [("client_id", "other"), ("client_secret", "othersec")], .ok .null⟩ =
      .ok (some DUMMY_CLIENT_ID, some DUMMY_CLIENT_SECRET) :=
  parse_header_priority _ DUMMY_CLIENT_ID DUMMY_CLIENT_SECRET (by decide) (by decide)

/-- C10 counterexample: a Basic-auth payload decoding to `:secret` gives
an empty client id, and extraction does fall through — but with a content
type matching neither body branch the routine returns the header-derived
pair `("", "secret")`: the header secret is *not* discarded as the claim
requires (the body-derived result here would be `(none, none)`). -/
theorem parse_empty_id_keeps_secret_cex :
    parse_client_credentials ⟨some "Basic OnNlY3JldA==", "text/plain", [], .ok .null⟩ =
      .ok (some "", some "secret")
    ∧ (Except.ok (some "", some "secret") :
        Except Unit (Option String × Option String)) ≠ .ok (none, none) := by
  decide

/-- C10 amended: an empty string is falsy wherever the code tests
truthiness — (1) an `/authorize` query parameter supplied empty falls
through to the form, so an empty `client_id` absent from the form yields
the 400 missing-parameter response; (2) an empty resolved `state` is
omitted from the redirect; (3) a Basic-auth payload with an empty client
id is treated as no usable header identity and extraction falls through to
the body fallback — which *keeps* the header-derived locals (empty id and
header secret) whenever no body branch assigns over them. -/
theorem empty_string_params_treated_absent :
    (∀ (args form : List (String × String)),
       args.lookup "client_id" = some "" → form.lookup "client_id" = none →
       authorize ⟨args, form⟩ =
         ⟨400, .error "invalid_request" (some "Missing required parameters")⟩)
    ∧ (∀ (r : AuthRequest) (uri : String),
       truthy (getParam r "client_id") = true →
       getParam r "redirect_uri" = some uri → uri ≠ "" →
       getParamD r "response_type" "code" = "code" →
       getParam r "state" = some "" →
       authorize r = ⟨302, .redirectTo (uri ++ "?code=dummy_auth_code_12345")⟩)
    ∧ (∀ (r : TokenReq) (s : String),
       headerCreds r.authHeader = some ("", s) →
       parse_client_credentials r = bodyCredentials r (some "", some s)) := by
  refine ⟨fun args form ha hf => ?_, fun r uri hc hu hune hrt hst => ?_,
          fun r s h => ?_⟩
  · simp only [authorize]
    rw [if_pos]
    left
    simp [getParam, orFalsy, ha, hf, truthy]
  · have htu : truthy (some uri) = true := by simp [truthy, hune]
    simp only [authorize, hu, hrt]
    rw [if_neg (by simp [hc, htu]), if_neg (by simp)]
    rw [show truthy (getParam r "state") = false by rw [hst]; simp [truthy]]
    simp only [Bool.false_eq_true, if_false, Option.getD_some]
    rw [show urlencode [("code", AUTH_CODE)] = "code=dummy_auth_code_12345" from rfl,
        strAppendAssoc]
    rfl
  · unfold parse_client_credentials
    rw [h]
    simp [truthy]

/-- C10 amended witness: the three behaviours at concrete requests; the
last conjunct shows the form branch overwriting the header secret with the
form's (absent) one, so the discarding the claim expects does happen when
a body branch runs. -/
theorem empty_string_params_treated_absent_witness :
    authorize ⟨[("client_id", ""), ("redirect_uri", "http://localhost:3000/callback")], []⟩ =
      ⟨400, .error "invalid_request" (some "Missing required parameters")⟩
    ∧ authorize ⟨[("client_id", "x"), ("redirect_uri", "u")], [("state", "")]⟩ =
      ⟨302, .redirectTo ("u" ++ "?code=dummy_auth_code_12345")⟩
    ∧ parse_client_credentials ⟨some "Basic OnNlY3JldA==",
        "application/x-www-form-urlencoded", [("client_id", "formid")], .ok .null⟩ =
      bodyCredentials ⟨some "Basic OnNlY3JldA==",
        "application/x-www-form-urlencoded", [("client_id", "formid")], .ok .null⟩
        (some "", some "secret")
    ∧ bodyCredentials ⟨some "Basic OnNlY3JldA==",
        "application/x-www-form-urlencoded", [("client_id", "formid")], .ok .null⟩
        (some "", some "secret") = .ok (some "formid", none) :=
  ⟨empty_string_params_treated_absent.1 _ _ (by decide) (by decide),
   empty_string_params_treated_absent.2.1 _ "u" (by decide) (by decide) (by decide)
     (by decide) (by decide),
   empty_string_params_treated_absent.2.2 _ "secret" (by decide),
   by decide⟩

/-- C8 counterexample: a `/register` request whose body cannot be parsed
as JSON (a malformed body under a JSON content type makes
`request.get_json()` raise in every Flask version) is answered 400
`invalid_request` by the `except` clause, not 200. -/
theorem register_error_cex :
    register 0 (.error ()) = ⟨400, .error "invalid_request" none⟩
    ∧ (register 0 (.error ())).status ≠ 200 := by
  decide

/-- C8 amended: every `/register` request whose JSON read returns (any
parsed value — object, non-dict value, or `None`; the result is never
touched) is answered 200 with the fixed record — the body contents are
ignored, the identifier is always `dummy_client_12345`, and two responses
issued at different instants differ at most in the issuance timestamp; a
request whose JSON read raises is answered 400 `invalid_request`. -/
theorem register_fixed_response (now now2 : Nat)
    (d : JsonRead) :
    register now (.ok d) = ⟨200, .client (dummyConfig now)⟩
    ∧ (dummyConfig now).client_id = DUMMY_CLIENT_ID
    ∧ dummyConfig now = { dummyConfig now2 with client_id_issued_at := now }
    ∧ register now (.error ()) = ⟨400, .error "invalid_request" none⟩ :=
  ⟨rfl, rfl, rfl, rfl⟩
